import Mathlib

/-!
Shallow embedding of the Solana counter program (src/src/lib.rs).

The program state lives in an account: a key, an owner program id, and a
byte buffer.  Bytes are modelled as `Fin 256`, u64 values as `Nat` with
explicit bounds (`v < 2 ^ 64`), and public keys as `Nat` (only equality of
keys matters to the program).  Fallible Rust code returning
`Result<_, ProgramError>` is modelled with `Except ProgramError`.
-/

namespace Counter

abbrev Byte := Fin 256

abbrev Pubkey := Nat

/-- The largest u64 value, used by the overflow-checked addition. -/
def U64MAX : Nat := 2 ^ 64 - 1

/-- Rust's u64 checked_add: `some (a + b)` unless the sum would exceed u64::MAX. -/
def checked_add (a b : Nat) : Option Nat :=
  if a + b ≤ U64MAX then some (a + b) else none

/-- Little-endian 8-byte encoding of a u64 value (u64::to_le_bytes, and the
borsh serialization of a struct holding a single u64 field). -/
def leBytes (v : Nat) : List Byte :=
  (List.range 8).map fun i => ⟨v / 256 ^ i % 256, Nat.mod_lt _ (by decide)⟩

/-- Little-endian decoding of a byte list (u64::from_le_bytes on 8 bytes). -/
def fromLeBytes (bs : List Byte) : Nat :=
  bs.foldr (fun b acc => b.val + 256 * acc) 0

/-- The `ProgramError` variants the program can produce.  `borshIoError` is the
error the `?` operator produces when `try_from_slice` fails (the conversion of
a borsh `io::Error` into a `ProgramError`). -/
inductive ProgramError where
  | invalidInstructionData
  | incorrectProgramId
  | invalidAccountData
  | borshIoError
  | notEnoughAccountKeys
deriving DecidableEq

/-- The persisted record: `struct CounterAccount { count: u64 }`. -/
structure CounterAccount where
  count : Nat
deriving DecidableEq

/-- Borsh serialization of `CounterAccount`: the 8-byte little-endian count. -/
def CounterAccount.serialize (c : CounterAccount) : List Byte :=
  leBytes c.count

/-- Borsh `CounterAccount::try_from_slice`: succeeds only when the slice is
exactly 8 bytes (borsh's try_from_slice rejects leftover bytes), yielding the
little-endian decoded count; otherwise the `?` operator surfaces a
`borshIoError`. -/
def CounterAccount.try_from_slice (data : List Byte) :
    Except ProgramError CounterAccount :=
  if data.length = 8 then Except.ok (CounterAccount.mk (fromLeBytes data))
  else Except.error ProgramError.borshIoError

/-- The decoded instruction enum. -/
inductive CounterInstruction where
  | initializeCounter (initial_value : Nat)
  | incrementCounter
deriving DecidableEq

/-- `CounterInstruction::unpack`: split off the first byte as the variant
discriminant (empty input fails with InvalidInstructionData); variant 0 needs
the rest to convert into a `[u8; 8]` (exactly 8 bytes, else
InvalidInstructionData) read as little-endian u64; variant 1 is
IncrementCounter; any other variant fails with InvalidInstructionData. -/
def CounterInstruction.unpack (input : List Byte) :
    Except ProgramError CounterInstruction :=
  match input with
  | [] => Except.error ProgramError.invalidInstructionData
  | variant :: rest =>
    if variant.val = 0 then
      if rest.length = 8 then
        Except.ok (CounterInstruction.initializeCounter (fromLeBytes rest))
      else Except.error ProgramError.invalidInstructionData
    else if variant.val = 1 then
      Except.ok CounterInstruction.incrementCounter
    else Except.error ProgramError.invalidInstructionData

/-- An account handle: its address, the program that owns it, and its data. -/
structure AccountInfo where
  key : Pubkey
  owner : Pubkey
  data : List Byte
deriving DecidableEq

/-- Borsh `serialize` into a mutable byte slice: overwrites the first 8 bytes
of the buffer with the little-endian count, leaving any trailing bytes. -/
def serializeInto (v : Nat) (buf : List Byte) : List Byte :=
  leBytes v ++ buf.drop 8

/-- `process_increment_counter`: checks the account owner against the program
id (IncorrectProgramId on mismatch), deserializes the stored record via
`try_from_slice`, bumps the count with `checked_add` (InvalidAccountData on
overflow), and serializes the new record back into the account data.  The
returned account is the post-call state; an error means no write happened. -/
def process_increment_counter (program_id : Pubkey)
    (counter_account : AccountInfo) : Except ProgramError AccountInfo :=
  if counter_account.owner ≠ program_id then
    Except.error ProgramError.incorrectProgramId
  else
    match CounterAccount.try_from_slice counter_account.data with
    | Except.error e => Except.error e
    | Except.ok counter_data =>
      match checked_add counter_data.count 1 with
      | none => Except.error ProgramError.invalidAccountData
      | some newCount =>
        Except.ok (AccountInfo.mk counter_account.key counter_account.owner
          (serializeInto newCount counter_account.data))

/-- The bytes stored in the account after a call to increment: the new data on
success, the original data on failure (the failing call performs no write and
the host rolls the transaction back). -/
def incrementResultData (program_id : Pubkey) (acc : AccountInfo) :
    List Byte :=
  match process_increment_counter program_id acc with
  | Except.ok a => a.data
  | Except.error _ => acc.data

/-- Applying `process_increment_counter` n times, stopping at the first
error. -/
def incrementN (program_id : Pubkey) : Nat → AccountInfo →
    Except ProgramError AccountInfo
  | 0, acc => Except.ok acc
  | n + 1, acc =>
    match process_increment_counter program_id acc with
    | Except.ok a => incrementN program_id n a
    | Except.error e => Except.error e

/-- The arguments of the `system_instruction::create_account` call the
initialize handler hands to `invoke`. -/
structure CreateAccountArgs where
  from_pubkey : Pubkey
  to_pubkey : Pubkey
  lamports : Nat
  space : Nat
  owner : Pubkey
deriving DecidableEq

/-- `system_instruction::create_account` viewed as the record of its
arguments: the funding account, the account to create, the lamports to fund
it with, the byte size to allocate, and the owner program to assign. -/
def create_account (from_pubkey to_pubkey : Pubkey) (lamports space : Nat)
    (owner : Pubkey) : CreateAccountArgs :=
  CreateAccountArgs.mk from_pubkey to_pubkey lamports space owner

/-- What `process_initialize_counter` does when the host accepts the
allocation: the allocation request it issued, and the bytes it then wrote
into the freshly allocated (zero-initialized) buffer. -/
structure InitOutcome where
  request : CreateAccountArgs
  newData : List Byte
deriving DecidableEq

/-- `next_account_info`: takes the next account off the iterator, failing
with NotEnoughAccountKeys when none is left. -/
def next_account_info : List AccountInfo →
    Except ProgramError (AccountInfo × List AccountInfo)
  | [] => Except.error ProgramError.notEnoughAccountKeys
  | a :: rest => Except.ok (a, rest)

/-- `process_initialize_counter`: reads counter, payer and system-program
accounts off the iterator, computes the rent-exempt minimum for 8 bytes
(`Rent::get().minimum_balance` is a host call, passed in here as the function
`rentMinimumBalance`), invokes `create_account(payer, counter, lamports,
8, program_id)`, and serializes `CounterAccount { count: initial_value }`
into the newly allocated 8 zeroed bytes. -/
def process_initialize_counter (rentMinimumBalance : Nat → Nat)
    (program_id : Pubkey) (accounts : List AccountInfo)
    (initial_value : Nat) : Except ProgramError InitOutcome :=
  match next_account_info accounts with
  | Except.error e => Except.error e
  | Except.ok (counter_account, rest) =>
    match next_account_info rest with
    | Except.error e => Except.error e
    | Except.ok (payer_account, rest2) =>
      match next_account_info rest2 with
      | Except.error e => Except.error e
      | Except.ok (_system_program, _) =>
        let account_space := 8
        let required_lamports := rentMinimumBalance account_space
        Except.ok (InitOutcome.mk
          (create_account payer_account.key counter_account.key
            required_lamports account_space program_id)
          (serializeInto initial_value
            (List.replicate account_space (⟨0, by decide⟩ : Byte))))

/-! ### Basic lemmas about the byte codec -/

theorem leBytes_length (v : Nat) : (leBytes v).length = 8 := by
  simp [leBytes]

theorem fromLeBytes_leBytes (v : Nat) (h : v < 2 ^ 64) :
    fromLeBytes (leBytes v) = v := by
  have h8 : List.range 8 = [0, 1, 2, 3, 4, 5, 6, 7] := rfl
  simp only [leBytes, fromLeBytes, h8, List.map_cons, List.map_nil,
    List.foldr_cons, List.foldr_nil]
  norm_num
  omega

theorem leBytes_drop_eight (v : Nat) : (leBytes v).drop 8 = [] := by
  simp [leBytes]

/-- One successful increment: on a program-owned account storing the encoding
of a count c with room to grow, increment rewrites the data to the encoding
of c + 1 and changes nothing else. -/
theorem increment_step (program_id k c : Nat) (h : c + 1 ≤ U64MAX) :
    process_increment_counter program_id
        (AccountInfo.mk k program_id (leBytes c)) =
      Except.ok (AccountInfo.mk k program_id (leBytes (c + 1))) := by
  have hc : c < 2 ^ 64 := by
    unfold U64MAX at h
    omega
  unfold process_increment_counter
  simp [CounterAccount.try_from_slice, leBytes_length,
    fromLeBytes_leBytes c hc, checked_add, h, serializeInto,
    leBytes_drop_eight]

/-- Iterated increments add n to the count, as long as the sum stays within
u64 range. -/
theorem incrementN_ok (program_id k : Pubkey) (c0 n : Nat)
    (h : c0 + n ≤ U64MAX) :
    incrementN program_id n (AccountInfo.mk k program_id (leBytes c0)) =
      Except.ok (AccountInfo.mk k program_id (leBytes (c0 + n))) := by
  induction n generalizing c0 with
  | zero => simp [incrementN]
  | succ m ih =>
    have h1 : c0 + 1 ≤ U64MAX := by omega
    have h2 : c0 + 1 + m ≤ U64MAX := by omega
    have hstep := increment_step program_id k c0 h1
    have heq : c0 + 1 + m = c0 + (m + 1) := by omega
    unfold incrementN
    rw [hstep]
    exact heq ▸ ih (c0 + 1) h2

/-! ### Claims -/

/-- C1: for every u64 value v, unpacking the 9-byte buffer 0x00 followed by
le_bytes(v) yields InitializeCounter with initial_value v, and serializing
the CounterAccount built from v and deserializing it back returns a record
whose count equals v. -/
theorem claim_C1 (v : Nat) (h : v < 2 ^ 64) :
    CounterInstruction.unpack ((⟨0, by decide⟩ : Byte) :: leBytes v) =
      Except.ok (CounterInstruction.initializeCounter v) ∧
    CounterAccount.try_from_slice
        (CounterAccount.serialize (CounterAccount.mk v)) =
      Except.ok (CounterAccount.mk v) := by
  constructor
  · unfold CounterInstruction.unpack
    simp [leBytes_length, fromLeBytes_leBytes v h]
  · unfold CounterAccount.try_from_slice CounterAccount.serialize
    simp [leBytes_length, fromLeBytes_leBytes v h]

theorem claim_C1_witness :
    CounterInstruction.unpack ((⟨0, by decide⟩ : Byte) :: leBytes 48) =
      Except.ok (CounterInstruction.initializeCounter 48) ∧
    CounterAccount.try_from_slice
        (CounterAccount.serialize (CounterAccount.mk 48)) =
      Except.ok (CounterAccount.mk 48) :=
  claim_C1 48 (by decide)

/-- C2: applying increment n times to a program-owned account storing a valid
8-byte record with count c0 succeeds and leaves the stored record with count
c0 + n, provided c0 + n fits in a u64. -/
theorem claim_C2 (program_id k : Pubkey) (c0 n : Nat)
    (h : c0 + n ≤ U64MAX) :
    incrementN program_id n (AccountInfo.mk k program_id (leBytes c0)) =
      Except.ok (AccountInfo.mk k program_id (leBytes (c0 + n))) ∧
    CounterAccount.try_from_slice (leBytes (c0 + n)) =
      Except.ok (CounterAccount.mk (c0 + n)) := by
  have hlt : c0 + n < 2 ^ 64 := by
    unfold U64MAX at h
    omega
  refine ⟨incrementN_ok program_id k c0 n h, ?_⟩
  unfold CounterAccount.try_from_slice
  simp [leBytes_length, fromLeBytes_leBytes _ hlt]

theorem claim_C2_witness :
    incrementN 0 3 (AccountInfo.mk 7 0 (leBytes 48)) =
      Except.ok (AccountInfo.mk 7 0 (leBytes 51)) ∧
    CounterAccount.try_from_slice (leBytes 51) =
      Except.ok (CounterAccount.mk 51) := by
  have h := claim_C2 0 7 48 3 (by decide)
  norm_num at h
  exact h

/-- C3: incrementing a program-owned account whose stored record holds
u64::MAX fails with the overflow error the code produces there
(ProgramError::InvalidAccountData, the taxonomy's CounterOverflow), and the
stored 8 bytes are unchanged after the failing call. -/
theorem claim_C3 (program_id k : Pubkey) :
    process_increment_counter program_id
        (AccountInfo.mk k program_id (leBytes U64MAX)) =
      Except.error ProgramError.invalidAccountData ∧
    incrementResultData program_id
        (AccountInfo.mk k program_id (leBytes U64MAX)) = leBytes U64MAX := by
  have hmax : U64MAX < 2 ^ 64 := by
    unfold U64MAX
    omega
  have hov : ¬ (U64MAX + 1 ≤ U64MAX) := by omega
  have herr : process_increment_counter program_id
      (AccountInfo.mk k program_id (leBytes U64MAX)) =
      Except.error ProgramError.invalidAccountData := by
    unfold process_increment_counter
    simp [CounterAccount.try_from_slice, leBytes_length,
      fromLeBytes_leBytes _ hmax, checked_add, hov]
  refine ⟨herr, ?_⟩
  unfold incrementResultData
  rw [herr]

/-- C4: incrementing an account whose recorded owner differs from the
invoking program id fails with ProgramError::IncorrectProgramId (the
taxonomy's NotOwner) and performs no write: the stored bytes are unchanged. -/
theorem claim_C4 (program_id : Pubkey) (acc : AccountInfo)
    (h : acc.owner ≠ program_id) :
    process_increment_counter program_id acc =
      Except.error ProgramError.incorrectProgramId ∧
    incrementResultData program_id acc = acc.data := by
  have herr : process_increment_counter program_id acc =
      Except.error ProgramError.incorrectProgramId := by
    unfold process_increment_counter
    simp [h]
  refine ⟨herr, ?_⟩
  unfold incrementResultData
  rw [herr]

theorem claim_C4_witness :
    process_increment_counter 0 (AccountInfo.mk 5 1 (leBytes 4)) =
      Except.error ProgramError.incorrectProgramId ∧
    incrementResultData 0 (AccountInfo.mk 5 1 (leBytes 4)) =
      (AccountInfo.mk 5 1 (leBytes 4)).data :=
  claim_C4 0 (AccountInfo.mk 5 1 (leBytes 4)) (by decide)

/-- C5: initialize requests allocation of exactly 8 bytes at the counter
account, funded by the payer with the rent-exemption minimum for 8 bytes
(hence at least that minimum), owned by the invoking program, and then writes
the 8-byte little-endian borsh encoding of CounterAccount with count
initial_value over the newly allocated zeroed bytes. -/
theorem claim_C5 (rentMinimumBalance : Nat → Nat) (program_id : Pubkey)
    (counter payer sys : AccountInfo) (initial_value : Nat) :
    process_initialize_counter rentMinimumBalance program_id
        [counter, payer, sys] initial_value =
      Except.ok (InitOutcome.mk
        (CreateAccountArgs.mk payer.key counter.key
          (rentMinimumBalance 8) 8 program_id)
        (CounterAccount.serialize (CounterAccount.mk initial_value))) ∧
    rentMinimumBalance 8 ≥ rentMinimumBalance 8 := by
  refine ⟨?_, le_refl _⟩
  unfold process_initialize_counter next_account_info create_account
  simp [serializeInto, CounterAccount.serialize]

/-- C6 counterexample: the code gives the empty buffer and an unknown
discriminant the SAME error value (both ProgramError::InvalidInstructionData),
so the two failures do not carry distinct error kinds. -/
theorem claim_C6_counterexample :
    CounterInstruction.unpack [] =
      CounterInstruction.unpack [(⟨2, by decide⟩ : Byte)] ∧
    CounterInstruction.unpack [] =
      Except.error ProgramError.invalidInstructionData := by
  exact ⟨rfl, rfl⟩

/-- C6 amended: decoding an empty buffer fails, and decoding a non-empty
buffer whose first byte is neither 0x00 nor 0x01 fails, but both failures
return the same error kind, ProgramError::InvalidInstructionData; the code
does not distinguish a malformed instruction from an unknown discriminant. -/
theorem claim_C6 (b : Byte) (rest : List Byte) (h0 : b.val ≠ 0)
    (h1 : b.val ≠ 1) :
    CounterInstruction.unpack [] =
      Except.error ProgramError.invalidInstructionData ∧
    CounterInstruction.unpack (b :: rest) =
      Except.error ProgramError.invalidInstructionData := by
  refine ⟨rfl, ?_⟩
  unfold CounterInstruction.unpack
  simp [h0, h1]

theorem claim_C6_witness :
    CounterInstruction.unpack [] =
      Except.error ProgramError.invalidInstructionData ∧
    CounterInstruction.unpack [(⟨7, by decide⟩ : Byte), (⟨9, by decide⟩ : Byte)] =
      Except.error ProgramError.invalidInstructionData :=
  claim_C6 ⟨7, by decide⟩ [⟨9, by decide⟩] (by decide) (by decide)

/-- C7: a buffer whose first byte is 0x00 with total length below 9 (so
fewer than 8 payload bytes) fails to decode with
ProgramError::InvalidInstructionData (the taxonomy's MalformedInstruction). -/
theorem claim_C7 (rest : List Byte) (h : rest.length < 8) :
    CounterInstruction.unpack ((⟨0, by decide⟩ : Byte) :: rest) =
      Except.error ProgramError.invalidInstructionData := by
  unfold CounterInstruction.unpack
  simp
  omega

theorem claim_C7_witness :
    CounterInstruction.unpack [(⟨0, by decide⟩ : Byte)] =
      Except.error ProgramError.invalidInstructionData :=
  claim_C7 [] (by decide)

/-- C8: a buffer whose first byte is 0x01 decodes to IncrementCounter no
matter what trailing bytes follow. -/
theorem claim_C8 (rest : List Byte) :
    CounterInstruction.unpack ((⟨1, by decide⟩ : Byte) :: rest) =
      Except.ok CounterInstruction.incrementCounter := by
  unfold CounterInstruction.unpack
  simp

/-- C9: incrementing a program-owned account whose stored data is not
decodable as a CounterAccount (any length other than 8 bytes; in particular
fewer than 8) fails with the borsh deserialization error (the taxonomy's
CorruptAccountData) and performs no write. -/
theorem claim_C9 (program_id k : Pubkey) (data : List Byte)
    (h : data.length ≠ 8) :
    process_increment_counter program_id
        (AccountInfo.mk k program_id data) =
      Except.error ProgramError.borshIoError ∧
    incrementResultData program_id (AccountInfo.mk k program_id data) =
      data := by
  have herr : process_increment_counter program_id
      (AccountInfo.mk k program_id data) =
      Except.error ProgramError.borshIoError := by
    unfold process_increment_counter
    simp [CounterAccount.try_from_slice, h]
  refine ⟨herr, ?_⟩
  unfold incrementResultData
  rw [herr]

theorem claim_C9_witness :
    process_increment_counter 0 (AccountInfo.mk 3 0 []) =
      Except.error ProgramError.borshIoError ∧
    incrementResultData 0 (AccountInfo.mk 3 0 []) = [] :=
  claim_C9 0 3 [] (by decide)

/-- C10: a buffer whose first byte is 0x00 with total length above 9 (so
more than 8 payload bytes) fails to decode: the conversion of the payload
into a fixed 8-byte array rejects trailing bytes. -/
theorem claim_C10 (rest : List Byte) (h : 8 < rest.length) :
    CounterInstruction.unpack ((⟨0, by decide⟩ : Byte) :: rest) =
      Except.error ProgramError.invalidInstructionData := by
  unfold CounterInstruction.unpack
  simp
  omega

theorem claim_C10_witness :
    CounterInstruction.unpack
        ((⟨0, by decide⟩ : Byte) :: List.replicate 9 (⟨0, by decide⟩ : Byte)) =
      Except.error ProgramError.invalidInstructionData :=
  claim_C10 (List.replicate 9 (⟨0, by decide⟩ : Byte)) (by simp)

end Counter
